import Mathlib

/-!
Verification of the voltron core server (`voltron/core.py`) against its
natural-language specification.

The Python module is shallowly embedded: raw wire text is a `String` (or a
list of byte values / code points where decoding matters), Python exceptions
become explicit error values, and the behaviour of external collaborators
(the api/plugin modules, the debugger backend, the operating system's socket
calls) is abstracted into oracle parameters that are universally quantified
in the theorems.  Mutable state (the client registry, `Client.sock`) is
passed explicitly.
-/

/-- Python exceptions that `core.py` raises or lets escape, as explicit
values.  `loopStuck` is a marker for a `while True` retry loop whose
modelled attempt list was exhausted while every attempt was EINTR: the real
loop would still be blocked retrying, so no theorem relies on it. -/
inductive PyExc where
  | notConnectedError
  | socketError
  | socketDisconnected
  | unicodeDecodeError
  | otherExc (msg : String)
  | loopStuck
deriving DecidableEq, Repr

/-- API response objects handled by `Server.handle_request` and
`Server.dispatch_request`.  The error constructors mirror the
`API...ErrorResponse` classes; `value` stands for whatever response object a
request's `dispatch()` returned. -/
inductive Response where
  | debuggerNotPresentErrorResponse
  | invalidRequestErrorResponse
  | pluginNotFoundErrorResponse
  | missingFieldErrorResponse (msg : String)
  | genericErrorResponse (msg : String)
  | value (payload : String)
deriving DecidableEq, Repr

/-- Behaviour of `req.validate()` (defined in the external api module): it
either returns, raises `MissingFieldError` (whose `str` is `msg`), or raises
some other exception. -/
inductive ValidateOutcome where
  | ok
  | missingFieldError (msg : String)
  | otherError (msg : String)
deriving DecidableEq, Repr

/-- Behaviour of `req.dispatch()`: it either returns a response object or
raises an exception whose `str` is `msg`. -/
inductive DispatchOutcome where
  | ok (res : Response)
  | raises (msg : String)
deriving DecidableEq, Repr

/-- A concrete API request object as seen by the dispatcher: its `request`
attribute (the kind string) and the behaviour of its `validate()` and
`dispatch()` methods. -/
structure DReq where
  request : String
  validate : ValidateOutcome
  dispatch : DispatchOutcome
deriving DecidableEq, Repr

/-- Behaviour of `client.send_response(...)` on the connection passed to the
dispatcher: it either succeeds or raises `socket.error`. -/
inductive SendOutcome where
  | ok
  | socketError
deriving DecidableEq, Repr

/-- Observable outcome of a `Server.dispatch_request` call that did not
raise: the value returned to the caller (`none` is Python `None`), the
responses written to the client connection, and whether `req.dispatch()`
was invoked. -/
structure DOut where
  ret : Option Response
  sent : List Response
  invoked : Bool
deriving DecidableEq, Repr

/-- The message of the `APIGenericErrorResponse` built at core.py line 161. -/
def genericMsg (m : String) : String :=
  "Exception raised while dispatching request: " ++ m

/-- Validation and execution stage of `Server.dispatch_request` (core.py
lines 149-163): `validate()` is wrapped in `try/except MissingFieldError`,
so any other exception raised by validation escapes as `Except.error`;
when no response was produced by validation, `dispatch()` runs, wrapped in
`try/except Exception` and converted to `APIGenericErrorResponse`.
Returns the response together with whether `dispatch()` was invoked. -/
def Server.dispatchResponse (req : DReq) : Except PyExc (Response × Bool) :=
  match req.validate with
  | ValidateOutcome.otherError msg => Except.error (PyExc.otherExc msg)
  | ValidateOutcome.missingFieldError msg =>
    Except.ok (Response.missingFieldErrorResponse msg, false)
  | ValidateOutcome.ok =>
    match req.dispatch with
    | DispatchOutcome.ok r => Except.ok (r, true)
    | DispatchOutcome.raises msg =>
      Except.ok (Response.genericErrorResponse (genericMsg msg), true)

/-- `Server.dispatch_request(req, client)` (core.py lines 143-176):
validation and execution as in `Server.dispatchResponse`, then delivery —
the response is sent to the client when one was supplied (`socket.error`
caught and logged) and returned to the caller otherwise. -/
def Server.dispatch_request (req : DReq) (client : Option SendOutcome) :
    Except PyExc DOut :=
  match Server.dispatchResponse req with
  | Except.error e => Except.error e
  | Except.ok (res, invoked) =>
    match client with
    | none => Except.ok { ret := some res, sent := [], invoked := invoked }
    | some SendOutcome.ok => Except.ok { ret := none, sent := [res], invoked := invoked }
    | some SendOutcome.socketError => Except.ok { ret := none, sent := [], invoked := invoked }

/-- Oracles consumed by `Server.handle_request`: whether a debugger backend
is attached (`voltron.debugger`), the behaviour of the `APIRequest`
envelope parse (returns the envelope's `request` kind string or raises),
and the behaviour of `api_request(kind, data)` (returns a concrete request,
returns `None` when no plugin is found, or raises). -/
structure HandleEnv where
  debugger : Bool
  parseEnvelope : String → Except String String
  apiRequest : String → String → Except String (Option DReq)

/-- Observable outcome of a `Server.handle_request` call that did not raise:
the returned value (`none` is Python `None`), responses written to the
connection, background threads spawned for blocking requests (with the
connection argument they were given), and whether `dispatch()` ran
synchronously. -/
structure HOut where
  ret : Option Response
  sent : List Response
  spawned : List (DReq × Option SendOutcome)
  invoked : Bool
deriving DecidableEq, Repr

/-- Lines 133-141 of core.py: an error response produced during
preprocessing is sent to the client when one was supplied (`socket.error`
caught and logged), otherwise returned. -/
def Server.sendOrReturn (client : Option SendOutcome) (res : Response) :
    Except PyExc HOut :=
  match client with
  | none => Except.ok { ret := some res, sent := [], spawned := [], invoked := false }
  | some SendOutcome.ok => Except.ok { ret := none, sent := [res], spawned := [], invoked := false }
  | some SendOutcome.socketError => Except.ok { ret := none, sent := [], spawned := [], invoked := false }

/-- `Server.handle_request(data, client)` (core.py lines 89-141): preflight
debugger check, envelope parse (failure gives `APIInvalidRequestErrorResponse`),
concrete request construction (failure or `None` gives
`APIPluginNotFoundErrorResponse`), then a `wait` request is handed to a
background thread (the call itself returns Python `None`) and anything else
is dispatched synchronously with its result returned. -/
def Server.handle_request (env : HandleEnv) (data : String)
    (client : Option SendOutcome) : Except PyExc HOut :=
  if env.debugger then
    match env.parseEnvelope data with
    | Except.error _ => Server.sendOrReturn client Response.invalidRequestErrorResponse
    | Except.ok kind =>
      match env.apiRequest kind data with
      | Except.error _ => Server.sendOrReturn client Response.pluginNotFoundErrorResponse
      | Except.ok none => Server.sendOrReturn client Response.pluginNotFoundErrorResponse
      | Except.ok (some req) =>
        if req.request = "wait" then
          Except.ok { ret := none, sent := [], spawned := [(req, client)], invoked := false }
        else
          match Server.dispatch_request req client with
          | Except.error e => Except.error e
          | Except.ok d =>
            Except.ok { ret := d.ret, sent := d.sent, spawned := [], invoked := d.invoked }
  else
    Server.sendOrReturn client Response.debuggerNotPresentErrorResponse

/-- The `server.listen` configuration consulted by `Server.start` (the http
entry is irrelevant to the claims about socket loops). -/
structure ListenConfig where
  domain : Bool
  tcp : Bool
deriving DecidableEq, Repr

/-- A `ServerThread` as constructed by `Server.start`: it stores the
references it was handed.  `clients` is the heap reference (modelled as an
address) of the Python list object passed in as the `clients` argument;
`sockIsPath` distinguishes the domain-socket path from the TCP tuple. -/
structure SThread where
  clients : Nat
  exitPipe : Nat
  sockIsPath : Bool
deriving DecidableEq, Repr

/-- The parts of a `Server` object relevant to registry ownership.
References are heap addresses: `clients` is the address of the single list
created by `Server.__init__`. -/
structure ServerState where
  clients : Nat
  dExitOut : Nat
  tExitOut : Nat
  dThread : Option SThread
  tThread : Option SThread
deriving DecidableEq, Repr

/-- `Server.__init__` (core.py lines 39-48): allocates one `clients` list
(address 0) and the two exit pipes; no threads yet. -/
def Server.init : ServerState :=
  { clients := 0, dExitOut := 1, tExitOut := 2, dThread := none, tThread := none }

/-- `Server.start` (core.py lines 50-59, socket transports): each enabled
transport gets a `ServerThread(self, self.clients, <exit pipe>, <sock>)` —
note both threads are handed the same `self.clients` reference. -/
def Server.start (listen : ListenConfig) (s : ServerState) : ServerState :=
  let s1 :=
    if listen.domain then
      { s with dThread := some { clients := s.clients, exitPipe := s.dExitOut, sockIsPath := true } }
    else s
  if listen.tcp then
    { s1 with tThread := some { clients := s1.clients, exitPipe := s1.tExitOut, sockIsPath := false } }
  else s1

/-- `ServerThread.purge_client` (core.py lines 259-265) acting on the pair
(registry list, log of closed clients): `client.close()` first (exceptions
swallowed), then `self.clients.remove(client)` if present, which removes the
first occurrence. -/
def ServerThread.purge_client (st : List Nat × List Nat) (c : Nat) :
    List Nat × List Nat :=
  let closed := st.2 ++ [c]
  let clients := if c ∈ st.1 then st.1.erase c else st.1
  (clients, closed)

/-- Python's `for client in self.clients: self.purge_client(client)`
(core.py lines 245-246): the list iterator is index based, so removing
elements during iteration skips positions.  Each step reads index `i` of
the current (mutated) list and stops when the index is out of range.  The
fuel argument only bounds recursion; `purge_client` never grows the list,
so fuel equal to the initial length is enough (see
`cleanupClientsFrom_fuel_adequate`). -/
def ServerThread.cleanupClientsFrom : Nat → Nat → List Nat × List Nat → List Nat × List Nat
  | 0, _, st => st
  | fuel + 1, i, st =>
    match st.1[i]? with
    | none => st
    | some c => ServerThread.cleanupClientsFrom fuel (i + 1) (ServerThread.purge_client st c)

/-- The cleanup loop run by `ServerThread.run` on entering shutdown
(core.py lines 243-246), starting from a registry and an empty closed log. -/
def ServerThread.cleanupClients (clients : List Nat) : List Nat × List Nat :=
  ServerThread.cleanupClientsFrom clients.length 0 (clients, [])

/-- Outcome of one `select.select` call inside the retry loop. -/
inductive SelOutcome where
  | ok (rfds : List Nat)
  | eintr
  | otherError
deriving Repr

/-- A `select.error` escaping the retry loop. -/
inductive SelErr where
  | eintr
  | otherError
deriving DecidableEq, Repr

/-- Result of the `for i in range(3)` readiness-wait loop: either an
exception propagates, or the loop runs to completion with `rfds` bound to
the last successful call's ready set (`none` if no call succeeded, i.e. the
name would be unbound — unreachable, since completing requires attempt 2 to
succeed). -/
inductive SelectResult where
  | raised (e : SelErr)
  | completed (rfds : Option (List Nat))
deriving Repr

/-- core.py lines 211-219: `for i in range(3): try: rfds,_,_ = select(...)
except select.error as ex: if is_eintr(ex): if i != 2: continue; raise`.
The list argument is the remaining loop indices; `att i` is the outcome of
the select call made on iteration `i`.  The second component counts how
many select calls were made. -/
def ServerThread.selectFor (att : Nat → SelOutcome) :
    List Nat → Option (List Nat) → SelectResult × Nat
  | [], rfds => (SelectResult.completed rfds, 0)
  | i :: rest, rfds =>
    match att i with
    | SelOutcome.ok r =>
      let p := ServerThread.selectFor att rest (some r)
      (p.1, p.2 + 1)
    | SelOutcome.eintr =>
      if i ≠ 2 then
        let p := ServerThread.selectFor att rest rfds
        (p.1, p.2 + 1)
      else (SelectResult.raised SelErr.eintr, 1)
    | SelOutcome.otherError => (SelectResult.raised SelErr.otherError, 1)

/-- The readiness-wait wrapper: `for i in range(3)` with no prior rfds. -/
def ServerThread.selectRetry (att : Nat → SelOutcome) : SelectResult × Nat :=
  ServerThread.selectFor att [0, 1, 2] none

/-- `READ_MAX = 0xFFFF` (core.py line 21). -/
def READ_MAX : Nat := 0xFFFF

/-- Python's `str.strip()` whitespace set (Unicode whitespace), on code
points. -/
def pyIsSpace (c : Nat) : Bool :=
  (0x09 ≤ c && c ≤ 0x0D) || (0x1C ≤ c && c ≤ 0x1F) || c == 0x20 || c == 0x85 ||
  c == 0xA0 || c == 0x1680 || (0x2000 ≤ c && c ≤ 0x200A) || c == 0x2028 ||
  c == 0x2029 || c == 0x202F || c == 0x205F || c == 0x3000

/-- Python's `str.strip()`: drop whitespace from the front, then from the
back (via reversal). -/
def pyStrip (l : List Nat) : List Nat :=
  (((l.dropWhile pyIsSpace).reverse).dropWhile pyIsSpace).reverse

/-- Spec-side definition, following the spec's words only ("strips trailing
whitespace"): removes whitespace from the back alone, to be compared with
the behaviour of the code, which strips both ends. -/
def stripTrailingOnly (l : List Nat) : List Nat :=
  (l.reverse.dropWhile pyIsSpace).reverse

/-- Strict UTF-8 decoding as performed by Python's `bytes.decode('UTF-8')`,
as a byte-at-a-time state machine.  `need` is the number of continuation
bytes still expected, `cp` the partial code point, `minCp` the smallest
code point the current sequence length may encode (rejecting overlong
forms); surrogates and code points above 0x10FFFF are rejected.  Returns
the decoded code points, or `none` when Python would raise
`UnicodeDecodeError`. -/
def utf8DecodeAux : List Nat → Nat → Nat → Nat → List Nat → Option (List Nat)
  | [], 0, _, _, acc => some acc.reverse
  | [], _ + 1, _, _, _ => none
  | b :: rest, 0, _, _, acc =>
    if b < 0x80 then utf8DecodeAux rest 0 0 0 (b :: acc)
    else if b < 0xC0 then none
    else if b < 0xE0 then utf8DecodeAux rest 1 (b - 0xC0) 0x80 acc
    else if b < 0xF0 then utf8DecodeAux rest 2 (b - 0xE0) 0x800 acc
    else if b < 0xF8 then utf8DecodeAux rest 3 (b - 0xF0) 0x10000 acc
    else none
  | c :: rest, n + 1, cp, minCp, acc =>
    if 0x80 ≤ c ∧ c < 0xC0 then
      let cp2 := cp * 0x40 + (c - 0x80)
      if n = 0 then
        if minCp ≤ cp2 ∧ cp2 ≤ 0x10FFFF ∧ ¬(0xD800 ≤ cp2 ∧ cp2 ≤ 0xDFFF) then
          utf8DecodeAux rest 0 0 0 (cp2 :: acc)
        else none
      else utf8DecodeAux rest n cp2 minCp acc
    else none

/-- `bytes.decode('UTF-8')` on a byte list, yielding code points. -/
def utf8Decode (l : List Nat) : Option (List Nat) := utf8DecodeAux l 0 0 0 []

/-- Error raised by `ClientSocket.recv_request`. -/
inductive RecvError where
  | socketDisconnected
  | unicodeDecodeError
deriving DecidableEq, Repr

/-- `ClientSocket.recv_request` (core.py lines 515-524):
`data = self.sock.recv(READ_MAX).decode('UTF-8').strip()`, then
`raise SocketDisconnected()` if `len(data) == 0`, else return `data`.
`pending` is the data available on the socket; the single `recv(READ_MAX)`
hands over at most `READ_MAX` bytes of it.  The returned text is its list
of code points. -/
def ClientSocket.recv_request (pending : List Nat) : Except RecvError (List Nat) :=
  match utf8Decode (pending.take READ_MAX) with
  | none => Except.error RecvError.unicodeDecodeError
  | some s =>
    let data := pyStrip s
    if data.length = 0 then Except.error RecvError.socketDisconnected
    else Except.ok data

/-- One attempt of a retried socket call: it returns a value, is
interrupted by EINTR, or fails with a non-EINTR `socket.error`. -/
inductive Attempt (α : Type) where
  | ok (a : α)
  | eintr
  | err
deriving DecidableEq, Repr

/-- The `while True: try ... except socket.error as e: if e.errno ==
errno.EINTR: continue else ...` pattern used by `Client.send_request` for
both `sendall` and `recv`: EINTR attempts are retried, the first decisive
attempt wins.  `none` means the attempt list ran out while every attempt
was EINTR (the Python loop would still be retrying). -/
def retryLoop {α : Type} : List (Attempt α) → Option (Except PyExc α)
  | [] => none
  | Attempt.ok a :: _ => some (Except.ok a)
  | Attempt.eintr :: rest => retryLoop rest
  | Attempt.err :: _ => some (Except.error PyExc.socketError)

/-- A response object as materialised by `Client.send_request`: the generic
`APIResponse` envelope, an `APIErrorResponse`, or an instance of the
plugin's `response_class`. -/
inductive RespVal where
  | generic (isErr : Bool)
  | errorResp
  | pluginResp (name : String)
deriving DecidableEq, Repr

/-- Oracles consumed by `Client.send_request`: the outcomes of the
`sendall` attempts (payload: `sendall`'s return value, `None` in CPython),
the `recv` attempts (payload: the bytes received), and the behaviour of the
external api/plugin collaborators — `APIResponse(data=...)` returns the
envelope's `is_error` flag or raises (`none`), `APIErrorResponse(data=...)`
returns or raises, and `pluginFor kind` is
`voltron.plugin.pm.api_plugin_for_request(kind)`: no plugin, a plugin
without a `response_class`, or a `response_class` whose parse returns a
concrete response name or raises. -/
structure ClientEnv where
  sendAttempts : List (Attempt (Option Unit))
  recvAttempts : List (Attempt (List Nat))
  parseAPIResponse : List Nat → Option Bool
  parseAPIErrorResponse : List Nat → Option Unit
  pluginFor : String → Option (Option (List Nat → Option String))

/-- Result of a `Client.send_request` call: the value it returns or the
exception it raises, and the client's `sock` attribute afterwards. -/
structure SendResult where
  ret : Except PyExc (Option RespVal)
  sockAfter : Option Unit
deriving Repr

/-- `Client.send_request(request)` (core.py lines 368-435).  `sock` is the
client's current `self.sock` (`none` when not connected); `kind` is
`request.request`.  Mirrors the code: the not-connected check raises
`NotConnectedError` first; the send loop retries EINTR and on any other
`socket.error` clears `self.sock` and re-raises; a non-`None` `sendall`
return clears `self.sock` and raises `SocketDisconnected`; the recv loop
retries EINTR and re-raises otherwise (keeping `self.sock`); the received
bytes are UTF-8 decoded (a failure propagates, uncaught); empty data raises
`SocketDisconnected`; otherwise the parse/plugin-resolution block runs
under `try/except Exception` — when any part of it raises, the exception is
logged and `res`, still `None` from the `sendall` assignment, is returned. -/
def Client.send_request (env : ClientEnv) (kind : String) (sock : Option Unit) :
    SendResult :=
  match sock with
  | none => { ret := Except.error PyExc.notConnectedError, sockAfter := none }
  | some _ =>
    match retryLoop env.sendAttempts with
    | none => { ret := Except.error PyExc.loopStuck, sockAfter := some () }
    | some (Except.error e) => { ret := Except.error e, sockAfter := none }
    | some (Except.ok res) =>
      if res ≠ none then
        { ret := Except.error PyExc.socketDisconnected, sockAfter := none }
      else
        match retryLoop env.recvAttempts with
        | none => { ret := Except.error PyExc.loopStuck, sockAfter := some () }
        | some (Except.error e) => { ret := Except.error e, sockAfter := some () }
        | some (Except.ok bytes) =>
          match utf8Decode bytes with
          | none => { ret := Except.error PyExc.unicodeDecodeError, sockAfter := some () }
          | some data =>
            if 0 < data.length then
              let res : Option RespVal :=
                match env.parseAPIResponse data with
                | none => none
                | some isErr =>
                  if isErr then
                    match env.parseAPIErrorResponse data with
                    | none => none
                    | some _ => some RespVal.errorResp
                  else
                    match env.pluginFor kind with
                    | some (some f) =>
                      match f data with
                      | none => none
                      | some nm => some (RespVal.pluginResp nm)
                    | _ => some (RespVal.generic isErr)
              { ret := Except.ok res, sockAfter := some () }
            else
              { ret := Except.error PyExc.socketDisconnected, sockAfter := some () }

/-- The configuration with both socket transports enabled. -/
def bothConfig : ListenConfig := { domain := true, tcp := true }

/-- A concrete blocking request and an environment in which it parses. -/
def c3Req : DReq :=
  { request := "wait", validate := ValidateOutcome.ok,
    dispatch := DispatchOutcome.ok (Response.value "w") }

/-- Environment for the C3 counterexample: debugger attached, envelope
parses to kind `wait`, plugin lookup succeeds. -/
def c3Env : HandleEnv :=
  { debugger := true
  , parseEnvelope := fun _ => Except.ok "wait"
  , apiRequest := fun _ _ => Except.ok (some c3Req) }

/-- A concrete non-blocking request and an environment in which it parses. -/
def c3bReq : DReq :=
  { request := "version", validate := ValidateOutcome.ok,
    dispatch := DispatchOutcome.ok (Response.value "v") }

/-- Environment for the C3 witness: a non-blocking request that parses. -/
def c3bEnv : HandleEnv :=
  { debugger := true
  , parseEnvelope := fun _ => Except.ok "version"
  , apiRequest := fun _ _ => Except.ok (some c3bReq) }

/-- Environment for the C4 witness: no debugger attached. -/
def c4Env : HandleEnv :=
  { debugger := false
  , parseEnvelope := fun _ => Except.ok "version"
  , apiRequest := fun _ _ => Except.ok none }

/-- Environment for the C8 failing input: send succeeds, a non-empty valid
UTF-8 response arrives, the generic envelope parses as a non-error, a
plugin with a `response_class` exists, and the re-parse into that concrete
response type raises. -/
def c8Env : ClientEnv :=
  { sendAttempts := [Attempt.ok none]
  , recvAttempts := [Attempt.ok [0x61]]
  , parseAPIResponse := fun _ => some false
  , parseAPIErrorResponse := fun _ => some ()
  , pluginFor := fun _ => some (some (fun _ => none)) }

/-- C1 counterexample: a request whose `validate()` raises an exception
that is not a `MissingFieldError` makes `Server.dispatch_request` propagate
that exception to its caller, so the claim that every failure during
validation or execution is caught at the dispatcher boundary is false. -/
theorem C1_counterexample :
    Server.dispatch_request
      { request := "k", validate := ValidateOutcome.otherError "boom",
        dispatch := DispatchOutcome.ok (Response.value "r") } none =
      Except.error (PyExc.otherExc "boom") := rfl

/-- C1 (amended): `Server.dispatch_request` converts a `MissingFieldError`
raised during validation into a `MissingFieldError` response and any
exception raised during execution into a `GenericError` response carrying
its description, and in those cases never raises; only a validation
failure other than `MissingFieldError` propagates to its caller. -/
theorem C1_dispatcher_catches (req : DReq) (client : Option SendOutcome)
    (h : ∀ msg, req.validate ≠ ValidateOutcome.otherError msg) :
    (∃ d, Server.dispatch_request req client = Except.ok d) ∧
    (∀ m, req.validate = ValidateOutcome.ok → req.dispatch = DispatchOutcome.raises m →
      Server.dispatchResponse req =
        Except.ok (Response.genericErrorResponse (genericMsg m), true)) := by
  have hresp : ∃ p, Server.dispatchResponse req = Except.ok p := by
    unfold Server.dispatchResponse
    cases hv : req.validate with
    | ok => cases req.dispatch <;> exact ⟨_, rfl⟩
    | missingFieldError msg => exact ⟨_, rfl⟩
    | otherError msg => exact absurd hv (h msg)
  obtain ⟨p, hp⟩ := hresp
  constructor
  · unfold Server.dispatch_request
    rw [hp]
    rcases p with ⟨res, inv⟩
    cases client with
    | none => exact ⟨_, rfl⟩
    | some s => cases s <;> exact ⟨_, rfl⟩
  · intro m hv hd
    unfold Server.dispatchResponse
    rw [hv, hd]

/-- C1 witness: a request whose execution raises is dispatched without the
exception escaping. -/
theorem C1_dispatcher_catches_witness :
    ∃ d, Server.dispatch_request
      { request := "k", validate := ValidateOutcome.ok,
        dispatch := DispatchOutcome.raises "x" } none = Except.ok d :=
  (C1_dispatcher_catches _ none (by intro msg h; simp at h)).1


/-- C2 counterexample: with both transports enabled, the domain-socket
thread and the TCP thread hold the same `clients` reference — the single
list allocated by `Server.__init__` — so the two loops' connection
collections are one shared object, not disjoint. -/
theorem C2_counterexample :
    (Server.start bothConfig Server.init).dThread.map SThread.clients =
      (Server.start bothConfig Server.init).tThread.map SThread.clients ∧
    (Server.start bothConfig Server.init).dThread.map SThread.clients =
      some Server.init.clients :=
  ⟨rfl, rfl⟩

/-- C2 (amended): `Server.start` passes the server's single `clients` list
to both `ServerThread`s, so whenever both transports are enabled the two
event loops share one registry object. -/
theorem C2_shared_registry (listen : ListenConfig) (s : ServerState)
    (hd : listen.domain = true) (ht : listen.tcp = true) :
    ∃ dt tt, (Server.start listen s).dThread = some dt ∧
      (Server.start listen s).tThread = some tt ∧
      dt.clients = s.clients ∧ tt.clients = s.clients := by
  unfold Server.start
  rw [hd, ht]
  exact ⟨_, _, rfl, rfl, rfl, rfl⟩

/-- C2 witness: the shared registry at the concrete initial server state. -/
theorem C2_shared_registry_witness :
    ∃ dt tt, (Server.start bothConfig Server.init).dThread = some dt ∧
      (Server.start bothConfig Server.init).tThread = some tt ∧
      dt.clients = Server.init.clients ∧ tt.clients = Server.init.clients :=
  C2_shared_registry bothConfig Server.init rfl rfl

/-- C3 counterexample: with the debugger attached and a request that passes
preflight and parsing but has the blocking `wait` kind, `handle_request`
called with no connection hands the request to a background thread and
returns Python `None` — not the Response value produced by dispatch. -/
theorem C3_counterexample :
    c3Env.debugger = true ∧
    c3Env.parseEnvelope "d" = Except.ok "wait" ∧
    c3Env.apiRequest "wait" "d" = Except.ok (some c3Req) ∧
    Server.handle_request c3Env "d" none =
      Except.ok { ret := none, sent := [], spawned := [(c3Req, none)], invoked := false } :=
  ⟨rfl, rfl, rfl, rfl⟩

/-- C3 (amended): for every request that passes preflight and parsing and
is not of the blocking `wait` kind, `handle_request` with no connection
returns exactly what `dispatch_request` produces, and whenever that
dispatch completes it returns an actual Response value; a `wait` request
instead spawns a background thread and the call returns `None`. -/
theorem C3_returns_response_nonwait (env : HandleEnv) (data kind : String) (req : DReq)
    (hdbg : env.debugger = true)
    (hp : env.parseEnvelope data = Except.ok kind)
    (ha : env.apiRequest kind data = Except.ok (some req))
    (hw : req.request ≠ "wait") :
    Server.handle_request env data none =
      (Server.dispatch_request req none).map
        (fun d => { ret := d.ret, sent := d.sent, spawned := [], invoked := d.invoked }) ∧
    (∀ d, Server.dispatch_request req none = Except.ok d → d.ret.isSome = true) := by
  constructor
  · unfold Server.handle_request
    rw [hdbg, hp]
    dsimp only
    rw [ha]
    dsimp only
    rw [if_neg hw]
    cases Server.dispatch_request req none with
    | error e => rfl
    | ok d => rfl
  · intro d hd
    unfold Server.dispatch_request at hd
    cases hr : Server.dispatchResponse req with
    | error e => rw [hr] at hd; exact absurd hd (by simp)
    | ok p =>
      rcases p with ⟨res, inv⟩
      rw [hr] at hd
      simp only [Except.ok.injEq] at hd
      rw [← hd]
      rfl

/-- C3 witness: a connection-less non-blocking request gets the dispatch
result returned. -/
theorem C3_returns_response_nonwait_witness :
    Server.handle_request c3bEnv "d" none =
      (Server.dispatch_request c3bReq none).map
        (fun d => { ret := d.ret, sent := d.sent, spawned := [], invoked := d.invoked }) :=
  (C3_returns_response_nonwait c3bEnv "d" "version" c3bReq rfl rfl rfl
    (by decide)).1

/-- C4: with no debugger backend attached, `handle_request` neither parses
nor dispatches nor spawns anything — for every raw input and every parse
oracle the outcome is exactly a `DebuggerNotPresentError` response,
returned to the caller when no connection is supplied and written to the
connection when one is (with a delivery failure swallowed as logged). -/
theorem C4_no_debugger (env : HandleEnv) (data : String) (client : Option SendOutcome)
    (h : env.debugger = false) :
    Server.handle_request env data client =
      (match client with
       | none => Except.ok ⟨some Response.debuggerNotPresentErrorResponse, [], [], false⟩
       | some SendOutcome.ok =>
         Except.ok ⟨none, [Response.debuggerNotPresentErrorResponse], [], false⟩
       | some SendOutcome.socketError => Except.ok ⟨none, [], [], false⟩) := by
  unfold Server.handle_request
  rw [h]
  cases client with
  | none => rfl
  | some s => cases s <;> rfl

/-- C4 witness: the short-circuit at a concrete environment and input. -/
theorem C4_no_debugger_witness :
    Server.handle_request c4Env "anything" none =
      Except.ok { ret := some Response.debuggerNotPresentErrorResponse,
                  sent := [], spawned := [], invoked := false } :=
  C4_no_debugger c4Env "anything" none rfl

/-- C5: when validation reports a missing required field (raises
`MissingFieldError e`), the dispatcher produces exactly
`APIMissingFieldErrorResponse(str(e))` — the message is the one naming the
field — `dispatch()` is never invoked, and the outcome is independent of
the request's dispatch behaviour (no handler side effects). -/
theorem C5_missing_field (req : DReq) (client : Option SendOutcome) (msg : String)
    (h : req.validate = ValidateOutcome.missingFieldError msg) :
    Server.dispatchResponse req =
      Except.ok (Response.missingFieldErrorResponse msg, false) ∧
    Server.dispatch_request req client =
      (match client with
       | none => Except.ok ⟨some (Response.missingFieldErrorResponse msg), [], false⟩
       | some SendOutcome.ok =>
         Except.ok ⟨none, [Response.missingFieldErrorResponse msg], false⟩
       | some SendOutcome.socketError => Except.ok ⟨none, [], false⟩) ∧
    (∀ d, Server.dispatch_request { req with dispatch := d } client =
      Server.dispatch_request req client) := by
  have h1 : Server.dispatchResponse req =
      Except.ok (Response.missingFieldErrorResponse msg, false) := by
    unfold Server.dispatchResponse
    rw [h]
  refine ⟨h1, ?_, ?_⟩
  · unfold Server.dispatch_request
    rw [h1]
  · intro d
    have h2 : Server.dispatchResponse { req with dispatch := d } =
        Except.ok (Response.missingFieldErrorResponse msg, false) := by
      unfold Server.dispatchResponse
      simp [h]
    unfold Server.dispatch_request
    rw [h1, h2]

/-- C5 witness: a concrete request whose validation reports field `target`
missing yields exactly the `MissingFieldError` response naming it. -/
theorem C5_missing_field_witness :
    Server.dispatchResponse
      { request := "k", validate := ValidateOutcome.missingFieldError "target",
        dispatch := DispatchOutcome.ok (Response.value "r") } =
      Except.ok (Response.missingFieldErrorResponse "target", false) :=
  (C5_missing_field _ none "target" rfl).1

/-- Purging never grows the registry, so fuel equal to the initial length
is enough for `cleanupClientsFrom`. -/
theorem purge_client_length_le (st : List Nat × List Nat) (c : Nat) :
    (ServerThread.purge_client st c).1.length ≤ st.1.length := by
  unfold ServerThread.purge_client
  by_cases h : c ∈ st.1
  · rw [if_pos h]
    rw [List.length_erase_of_mem h]
    omega
  · rw [if_neg h]

/-- Once the index is past the end of the (current) list, the loop stops
regardless of remaining fuel. -/
theorem cleanupClientsFrom_oob (fuel i : Nat) (st : List Nat × List Nat)
    (h : st.1.length ≤ i) :
    ServerThread.cleanupClientsFrom fuel i st = st := by
  cases fuel with
  | zero => rfl
  | succ f =>
    unfold ServerThread.cleanupClientsFrom
    rw [List.getElem?_eq_none h]

/-- The fuel argument of `cleanupClientsFrom` is irrelevant as long as it
covers the remaining positions: the modelled Python loop has a unique
behaviour. -/
theorem cleanupClientsFrom_fuel_adequate :
    ∀ (f1 f2 i : Nat) (st : List Nat × List Nat),
      st.1.length ≤ i + f1 → st.1.length ≤ i + f2 →
      ServerThread.cleanupClientsFrom f1 i st = ServerThread.cleanupClientsFrom f2 i st := by
  intro f1
  induction f1 with
  | zero =>
    intro f2 i st h1 h2
    rw [cleanupClientsFrom_oob 0 i st (by omega), cleanupClientsFrom_oob f2 i st (by omega)]
  | succ f ih =>
    intro f2 i st h1 h2
    cases f2 with
    | zero =>
      rw [cleanupClientsFrom_oob (f + 1) i st (by omega),
        cleanupClientsFrom_oob 0 i st (by omega)]
    | succ g =>
      unfold ServerThread.cleanupClientsFrom
      cases hc : st.1[i]? with
      | none => rfl
      | some c =>
        have hlt : i < st.1.length := by
          by_contra hge
          rw [List.getElem?_eq_none (by omega)] at hc
          cases hc
        have hle := purge_client_length_le st c
        exact ih g (i + 1) (ServerThread.purge_client st c) (by omega) (by omega)

/-- C6: evaluating the shutdown purge loop on a registry holding two live
connections: the index-based iteration skips the second connection after
the first is removed, so connection `2` is never closed and remains in the
registry — the registry is not empty when the loop finishes. -/
theorem C6_purge_loop_skips_second :
    ServerThread.cleanupClients [1, 2] = ([2], [1]) ∧
    (ServerThread.cleanupClients [1, 2]).1 ≠ [] :=
  ⟨rfl, by decide⟩

/-- C9: the readiness wait makes at most 3 select calls; an EINTR failure
is re-raised only on the third attempt (earlier ones are retried); three
consecutive interrupts surface the failure; and a non-interrupt readiness
failure is re-raised at once. -/
theorem C9_select_retry_bound (att : Nat → SelOutcome) :
    (ServerThread.selectRetry att).2 ≤ 3 ∧
    ((ServerThread.selectRetry att).1 = SelectResult.raised SelErr.eintr →
      att 2 = SelOutcome.eintr ∧ (ServerThread.selectRetry att).2 = 3) ∧
    (att 0 = SelOutcome.eintr → att 1 = SelOutcome.eintr → att 2 = SelOutcome.eintr →
      ServerThread.selectRetry att = (SelectResult.raised SelErr.eintr, 3)) ∧
    (att 0 = SelOutcome.otherError →
      ServerThread.selectRetry att = (SelectResult.raised SelErr.otherError, 1)) ∧
    (att 0 = SelOutcome.eintr → att 1 = SelOutcome.otherError →
      ServerThread.selectRetry att = (SelectResult.raised SelErr.otherError, 2)) := by
  rcases h0 : att 0 with r0 | _ | _ <;> rcases h1 : att 1 with r1 | _ | _ <;>
    rcases h2 : att 2 with r2 | _ | _ <;>
    simp [ServerThread.selectRetry, ServerThread.selectFor, h0, h1, h2]

/-- C9 witness: three consecutive interrupts make the loop re-raise after
exactly 3 select calls. -/
theorem C9_select_retry_bound_witness :
    ServerThread.selectRetry (fun _ => SelOutcome.eintr) =
      (SelectResult.raised SelErr.eintr, 3) :=
  (C9_select_retry_bound (fun _ => SelOutcome.eintr)).2.2.1 rfl rfl rfl

/-- C10: calling `Client.send_request` with no socket (`self.sock` is
`None`) raises `NotConnectedError` immediately: for every behaviour of the
socket layer and of the parsing collaborators — in particular before any
send or receive attempt is consumed — the result is the exception and the
client state is unchanged. -/
theorem C10_not_connected (env : ClientEnv) (kind : String) :
    Client.send_request env kind none =
      { ret := Except.error PyExc.notConnectedError, sockAfter := none } := rfl

/-- C8: at the failing input, the envelope parse succeeded (a generic
envelope exists) but the plugin re-parse raised, and `send_request` returns
Python `None` — the response is silently dropped instead of the generic
envelope being returned, contradicting both the claim and the method's own
docstring (`Returns an APIResponse or subclass instance`). -/
theorem C8_parse_failure_returns_none :
    c8Env.parseAPIResponse [0x61] = some false ∧
    Client.send_request c8Env "version" (some ()) =
      { ret := Except.ok none, sockAfter := some () } :=
  ⟨rfl, rfl⟩

/-- The head of whatever `dropWhile p` leaves fails `p`. -/
theorem head?_dropWhile_not (p : Nat → Bool) (l : List Nat) :
    ∀ c, (l.dropWhile p).head? = some c → p c = false := by
  induction l with
  | nil => intro c h; simp at h
  | cons a t ih =>
    intro c h
    rw [List.dropWhile_cons] at h
    by_cases hpa : p a = true
    · rw [if_pos hpa] at h
      exact ih c h
    · rw [if_neg hpa] at h
      simp only [List.head?_cons, Option.some.injEq] at h
      rw [← h]
      simp only [Bool.not_eq_true] at hpa
      exact hpa

/-- What `str.strip()` removes from the back: the stripped text followed by
the removed trailing whitespace reassembles the front-stripped text. -/
theorem pyStrip_eq_dropWhile_append (l : List Nat) :
    l.dropWhile pyIsSpace =
      pyStrip l ++ ((l.dropWhile pyIsSpace).reverse.takeWhile pyIsSpace).reverse := by
  have h := congrArg List.reverse
    (List.takeWhile_append_dropWhile pyIsSpace (l.dropWhile pyIsSpace).reverse)
  rw [List.reverse_append, List.reverse_reverse] at h
  unfold pyStrip
  exact h.symm

/-- `str.strip()` removes a fully-whitespace prefix and a fully-whitespace
suffix and keeps the middle. -/
theorem pyStrip_decomp (l : List Nat) :
    ∃ pre post, l = pre ++ pyStrip l ++ post ∧
      (∀ x ∈ pre, pyIsSpace x = true) ∧ (∀ x ∈ post, pyIsSpace x = true) := by
  refine ⟨l.takeWhile pyIsSpace,
    ((l.dropWhile pyIsSpace).reverse.takeWhile pyIsSpace).reverse, ?_, ?_, ?_⟩
  · calc l = l.takeWhile pyIsSpace ++ l.dropWhile pyIsSpace :=
        (List.takeWhile_append_dropWhile pyIsSpace l).symm
      _ = l.takeWhile pyIsSpace ++ (pyStrip l ++
          ((l.dropWhile pyIsSpace).reverse.takeWhile pyIsSpace).reverse) :=
        congrArg (fun t => l.takeWhile pyIsSpace ++ t) (pyStrip_eq_dropWhile_append l)
      _ = l.takeWhile pyIsSpace ++ pyStrip l ++
          ((l.dropWhile pyIsSpace).reverse.takeWhile pyIsSpace).reverse :=
        (List.append_assoc _ _ _).symm
  · intro x hx
    exact List.mem_takeWhile_imp hx
  · intro x hx
    rw [List.mem_reverse] at hx
    exact List.mem_takeWhile_imp hx

/-- The first character `str.strip()` keeps is not whitespace. -/
theorem pyStrip_head?_not_space (l : List Nat) :
    ∀ c, (pyStrip l).head? = some c → pyIsSpace c = false := by
  intro c hc
  have hfull : (l.dropWhile pyIsSpace).head? = some c := by
    rw [pyStrip_eq_dropWhile_append l]
    cases hs : pyStrip l with
    | nil => rw [hs] at hc; simp at hc
    | cons a t =>
      rw [hs] at hc
      simp only [List.head?_cons, Option.some.injEq] at hc
      rw [List.cons_append, List.head?_cons, hc]
  exact head?_dropWhile_not pyIsSpace l c hfull

/-- The last character `str.strip()` keeps is not whitespace. -/
theorem pyStrip_getLast?_not_space (l : List Nat) :
    ∀ c, (pyStrip l).getLast? = some c → pyIsSpace c = false := by
  intro c hc
  unfold pyStrip at hc
  rw [List.getLast?_reverse] at hc
  exact head?_dropWhile_not pyIsSpace (l.dropWhile pyIsSpace).reverse c hc

/-- C7 (amended): `recv_request` reads once (only the first `READ_MAX`
bytes matter), a UTF-8 decode failure surfaces as the decode error, an
all-whitespace or empty read raises the disconnect error, and otherwise the
returned text is the decoded text with a whitespace prefix and a whitespace
suffix removed — its first and last characters are not whitespace. -/
theorem C7_recv_one_read_strip_both (bytes : List Nat) :
    (ClientSocket.recv_request bytes = ClientSocket.recv_request (bytes.take READ_MAX)) ∧
    (utf8Decode (bytes.take READ_MAX) = none →
      ClientSocket.recv_request bytes = Except.error RecvError.unicodeDecodeError) ∧
    (∀ cps, utf8Decode (bytes.take READ_MAX) = some cps →
      (pyStrip cps = [] →
        ClientSocket.recv_request bytes = Except.error RecvError.socketDisconnected) ∧
      (pyStrip cps ≠ [] →
        ClientSocket.recv_request bytes = Except.ok (pyStrip cps) ∧
        (∃ pre post, cps = pre ++ pyStrip cps ++ post ∧
          (∀ x ∈ pre, pyIsSpace x = true) ∧ (∀ x ∈ post, pyIsSpace x = true)) ∧
        (∀ c, (pyStrip cps).head? = some c → pyIsSpace c = false) ∧
        (∀ c, (pyStrip cps).getLast? = some c → pyIsSpace c = false))) := by
  refine ⟨?_, ?_, ?_⟩
  · simp [ClientSocket.recv_request, List.take_take]
  · intro h
    unfold ClientSocket.recv_request
    rw [h]
  · intro cps h
    constructor
    · intro hnil
      unfold ClientSocket.recv_request
      rw [h]
      simp [hnil]
    · intro hne
      refine ⟨?_, pyStrip_decomp cps, pyStrip_head?_not_space cps,
        pyStrip_getLast?_not_space cps⟩
      unfold ClientSocket.recv_request
      rw [h]
      simp [List.length_eq_zero, hne]

/-- C7 witness: a read surrounded by whitespace comes back stripped. -/
theorem C7_recv_one_read_strip_both_witness :
    ClientSocket.recv_request [0x20, 0x61, 0x0A] =
      Except.ok (pyStrip [0x20, 0x61, 0x0A]) :=
  (((C7_recv_one_read_strip_both [0x20, 0x61, 0x0A]).2.2 [0x20, 0x61, 0x0A]
    (by rfl)).2 (by decide)).1

/-- C7 counterexample: on the two-byte read `" a"` the code returns `"a"`
(leading whitespace removed too), not the trailing-only strip the claim
describes; and a read consisting of one space raises the disconnect error
rather than returning the stripped text. -/
theorem C7_counterexample :
    ClientSocket.recv_request [0x20, 0x61] = Except.ok [0x61] ∧
    stripTrailingOnly [0x20, 0x61] = [0x20, 0x61] ∧
    ClientSocket.recv_request [0x20] = Except.error RecvError.socketDisconnected :=
  ⟨rfl, by decide, rfl⟩
